import Mathlib

/-
Verification development for the entry-access repository.

The Go sources are shallowly embedded as executable Lean definitions:
pure functions become Lean functions, stateful handlers become explicit
state-passing functions, machine integers are `Nat` with explicit
`% 2 ^ 32` where overflow matters, and fallible code returns values of
`Except` or explicit error options.  Definitions are named after the Go
functions they embed.
-/

namespace EntryAccess

/-! ### 32-bit word arithmetic

SHA-256 works on 32-bit words; we represent them as `Nat` reduced
modulo `2 ^ 32`.  All primitives call the `Nat.` functions directly so
kernel evaluation of concrete digests stays fast. -/

/-- Force a `Nat` to a literal before passing it on; this keeps kernel
    reduction call-by-value and avoids re-computing shared subterms. -/
def seqNat (n : Nat) (k : Nat → α) : α :=
  Nat.casesOn n (k 0) (fun m => k (m + 1))

/-- The modulus `2 ^ 32` for 32-bit words. -/
def M32 : Nat := 4294967296

/-- Addition of 32-bit words. -/
def add32 (a b : Nat) : Nat := Nat.mod (Nat.add a b) M32

/-- Bitwise complement on 32-bit words (inputs assumed `< 2 ^ 32`). -/
def not32 (a : Nat) : Nat := Nat.sub 4294967295 a

/-- Right rotation of a 32-bit word by `n` bits. -/
def rotr32 (n a : Nat) : Nat :=
  Nat.mod (Nat.lor (Nat.shiftRight a n) (Nat.shiftLeft a (Nat.sub 32 n))) M32

/-- Logical right shift of a 32-bit word. -/
def shr32 (n a : Nat) : Nat := Nat.shiftRight a n

/-! ### SHA-256 (FIPS 180-4), the hash used by Go `crypto/sha256`

The Go code calls `crypto/sha256` and `crypto/hmac` from the standard
library; those collaborators are embedded here in full so that device-id
signatures can be computed inside proofs.  The round constants are the
fractional parts of the cube roots of the first 64 primes and the
initial state the fractional parts of the square roots of the first 8
primes; both are given as literals and re-derived from that definition
in validation theorems below. -/

/-- First 64 primes, the sources of the SHA-256 constants. -/
def sha256Primes : List Nat :=
  [2, 3, 5, 7, 11, 13, 17, 19, 23, 29, 31, 37, 41, 43, 47, 53,
   59, 61, 67, 71, 73, 79, 83, 89, 97, 101, 103, 107, 109, 113, 127, 131,
   137, 139, 149, 151, 157, 163, 167, 173, 179, 181, 191, 193, 197, 199, 211, 223,
   227, 229, 233, 239, 241, 251, 257, 263, 269, 271, 277, 281, 283, 293, 307, 311]

/-- Integer cube root by bisection: the largest `x` in `[lo, hi)` with
    `x ^ 3 ≤ n`, assuming `lo ^ 3 ≤ n`; `fuel` bounds the bisection steps. -/
def cbrtAux (fuel : Nat) : Nat → Nat → Nat → Nat :=
  Nat.rec (motive := fun _ => Nat → Nat → Nat → Nat)
    (fun lo _ _ => lo)
    (fun _ ih lo hi n =>
      cond (Nat.ble hi (Nat.add lo 1)) lo
        (seqNat (Nat.div (Nat.add lo hi) 2) fun mid =>
          cond (Nat.ble (Nat.mul (Nat.mul mid mid) mid) n) (ih mid hi n) (ih lo mid n)))
    fuel

/-- Integer cube root (floor). -/
def cbrt (n : Nat) : Nat := seqNat n fun m => cbrtAux 110 0 (Nat.add m 1) m

/-- Integer square root by bisection, same shape as `cbrtAux`. -/
def sqrtAux (fuel : Nat) : Nat → Nat → Nat → Nat :=
  Nat.rec (motive := fun _ => Nat → Nat → Nat → Nat)
    (fun lo _ _ => lo)
    (fun _ ih lo hi n =>
      cond (Nat.ble hi (Nat.add lo 1)) lo
        (seqNat (Nat.div (Nat.add lo hi) 2) fun mid =>
          cond (Nat.ble (Nat.mul mid mid) n) (ih mid hi n) (ih lo mid n)))
    fuel

/-- Integer square root (floor). -/
def isqrt (n : Nat) : Nat := seqNat n fun m => sqrtAux 110 0 (Nat.add m 1) m

/-- The SHA-256 round constants. -/
def sha256K : List Nat :=
  [1116352408, 1899447441, 3049323471, 3921009573, 961987163, 1508970993, 2453635748, 2870763221,
  3624381080, 310598401, 607225278, 1426881987, 1925078388, 2162078206, 2614888103, 3248222580,
  3835390401, 4022224774, 264347078, 604807628, 770255983, 1249150122, 1555081692, 1996064986,
  2554220882, 2821834349, 2952996808, 3210313671, 3336571891, 3584528711, 113926993, 338241895,
  666307205, 773529912, 1294757372, 1396182291, 1695183700, 1986661051, 2177026350, 2456956037,
  2730485921, 2820302411, 3259730800, 3345764771, 3516065817, 3600352804, 4094571909, 275423344,
  430227734, 506948616, 659060556, 883997877, 958139571, 1322822218, 1537002063, 1747873779,
  1955562222, 2024104815, 2227730452, 2361852424, 2428436474, 2756734187, 3204031479, 3329325298]

/-- The SHA-256 initial hash state. -/
def sha256H0 : List Nat :=
  [1779033703, 3144134277, 1013904242, 2773480762, 1359893119, 2600822924, 528734635, 1541459225]

/-- Big-endian bytes (most significant first) of `n`, `k` bytes wide. -/
def beBytes (k : Nat) : Nat → List Nat :=
  Nat.rec (motive := fun _ => Nat → List Nat)
    (fun _ => [])
    (fun _ ih n => seqNat (Nat.div n 256) fun q => seqNat (Nat.mod n 256) fun r =>
      ih q ++ [r])
    k

/-- SHA-256 message padding: append `0x80`, zero bytes up to 56 mod 64,
    then the 64-bit big-endian bit length. -/
def sha256Pad (msg : List Nat) : List Nat :=
  seqNat msg.length fun l =>
    seqNat ((64 + 55 - (l % 64)) % 64) fun zeros =>
      msg ++ [128] ++ List.replicate zeros 0 ++ beBytes 8 (l * 8)

/-- Combine each run of 4 consecutive bytes (big-endian) into a 32-bit word. -/
def bytesToWords (bs : List Nat) : List Nat :=
  List.rec (motive := fun _ => Nat → Nat → List Nat)
    (fun _ _ => [])
    (fun b _ ih acc rem =>
      Nat.casesOn rem
        (seqNat (Nat.add (Nat.mul acc 256) b) fun w => w :: ih 0 3)
        (fun rem2 => seqNat (Nat.add (Nat.mul acc 256) b) fun acc2 => ih acc2 rem2))
    bs 0 3

/-- Small sigma-0 of the SHA-256 message schedule. -/
def sigma0 (x : Nat) : Nat := Nat.xor (Nat.xor (rotr32 7 x) (rotr32 18 x)) (shr32 3 x)

/-- Small sigma-1 of the SHA-256 message schedule. -/
def sigma1 (x : Nat) : Nat := Nat.xor (Nat.xor (rotr32 17 x) (rotr32 19 x)) (shr32 10 x)

/-- Big sigma-0 of the SHA-256 compression function. -/
def bigSigma0 (x : Nat) : Nat := Nat.xor (Nat.xor (rotr32 2 x) (rotr32 13 x)) (rotr32 22 x)

/-- Big sigma-1 of the SHA-256 compression function. -/
def bigSigma1 (x : Nat) : Nat := Nat.xor (Nat.xor (rotr32 6 x) (rotr32 11 x)) (rotr32 25 x)

/-- The choice function of SHA-256. -/
def ch (x y z : Nat) : Nat := Nat.xor (Nat.land x y) (Nat.land (not32 x) z)

/-- The majority function of SHA-256. -/
def maj (x y z : Nat) : Nat := Nat.xor (Nat.xor (Nat.land x y) (Nat.land x z)) (Nat.land y z)

/-- Extend the 16 block words to the 64-entry message schedule; the
    accumulator is kept in reverse order (newest word first). -/
def scheduleAux (t : Nat) : List Nat → List Nat :=
  Nat.rec (motive := fun _ => List Nat → List Nat)
    (fun w => w)
    (fun _ ih w =>
      seqNat (add32 (add32 (sigma1 (w.getD 1 0)) (w.getD 6 0))
                    (add32 (sigma0 (w.getD 14 0)) (w.getD 15 0))) fun wt =>
        ih (wt :: w))
    t

/-- The 64-word message schedule of one 16-word block. -/
def sha256Schedule (block : List Nat) : List Nat :=
  (scheduleAux 48 block.reverse).reverse

/-- One round of the SHA-256 compression function; the state is the word
    list `[a, b, c, d, e, f, g, h]`. -/
def sha256Round (k w : Nat) (st : List Nat) : List Nat :=
  match st with
  | [a, b, c, d, e, f, g, h] =>
    seqNat (add32 (add32 (add32 h (bigSigma1 e)) (add32 (ch e f g) k)) w) fun t1 =>
      seqNat (add32 (bigSigma0 a) (maj a b c)) fun t2 =>
        seqNat (add32 t1 t2) fun a2 =>
          seqNat (add32 d t1) fun e2 =>
            [a2, a, b, c, e2, e, f, g]
  | st => st

/-- Run the 64 rounds, consuming constants and schedule in lockstep. -/
def sha256Rounds (ks : List Nat) : List Nat → List Nat → List Nat :=
  List.rec (motive := fun _ => List Nat → List Nat → List Nat)
    (fun _ st => st)
    (fun k _ ih ws st =>
      List.casesOn ws st (fun w ws2 => ih ws2 (sha256Round k w st)))
    ks

/-- Compress one 512-bit block into the running hash state. -/
def sha256Compress (h : List Nat) (block : List Nat) : List Nat :=
  List.zipWith add32 h (sha256Rounds sha256K (sha256Schedule block) h)

/-- Fold the compression over the 16-word blocks of the word list
    (`fuel` bounds the number of blocks). -/
def foldBlocks (fuel : Nat) : List Nat → List Nat → List Nat :=
  Nat.rec (motive := fun _ => List Nat → List Nat → List Nat)
    (fun _ h => h)
    (fun _ ih ws h =>
      List.casesOn ws h (fun _ _ => ih (ws.drop 16) (sha256Compress h (ws.take 16))))
    fuel

/-- SHA-256 of a byte list, producing the 32 digest bytes. -/
def sha256 (msg : List Nat) : List Nat :=
  let ws := bytesToWords (sha256Pad msg)
  (foldBlocks ws.length ws sha256H0).flatMap (beBytes 4)

/-- Byte list of an ASCII string given as a character list (Go `[]byte(s)`). -/
def strBytes (s : List Char) : List Nat := s.map Char.toNat

/-- HMAC-SHA256 (RFC 2104) with 64-byte block size, as implemented by Go
    `crypto/hmac` with a `crypto/sha256` digest. -/
def hmacSha256 (key msg : List Nat) : List Nat :=
  let key2 := if 64 < key.length then sha256 key else key
  let kpad := key2 ++ List.replicate (64 - key2.length) 0
  sha256 ((kpad.map fun b => Nat.xor b 92) ++
    sha256 ((kpad.map fun b => Nat.xor b 54) ++ msg))

/-- Lowercase hex alphabet, as used by Go `encoding/hex`. -/
def hexChars : List Char := "0123456789abcdef".data

/-- Lowercase hex encoding of a byte list (Go `hex.EncodeToString`). -/
def hexEncode (bs : List Nat) : List Char :=
  bs.flatMap fun b => [hexChars.getD (b / 16) '0', hexChars.getD (b % 16) '0']

/-! ### Device identifiers (`internal/utils/uuid.go`)

Device ids are strings `uuid ++ "-" ++ sig` where `sig` is the first 16
hex characters of `HMAC-SHA256(secret, uuid)`.  Strings are modelled as
character lists so that the `strings.Split`/`strings.Join` calls become
`List.splitOn`/`List.intercalate`. -/

/-- Embedding of `GenerateDeviceID` from `internal/utils/uuid.go`.  The
    random UUID produced by `uuid.NewRandom().String()` is passed in as
    the `uuid` argument (the randomness source made explicit); the rest
    follows the source: sign the UUID string with HMAC-SHA256 keyed by
    `secret`, hex-encode, keep the first 16 characters, and append the
    signature after a dash. -/
def GenerateDeviceID (secret uuid : List Char) : List Char :=
  uuid ++ '-' :: (hexEncode (hmacSha256 (strBytes secret) (strBytes uuid))).take 16

/-- Embedding of `VerifyDeviceID` from `internal/utils/uuid.go`: split on
    dashes, require exactly 6 parts (5-part UUID plus signature), rejoin
    the first five parts, recompute the truncated HMAC signature and
    compare (Go `hmac.Equal` is plain byte-slice equality). -/
def VerifyDeviceID (deviceID secret : List Char) : Bool :=
  let parts := deviceID.splitOn '-'
  if parts.length ≠ 6 then false
  else
    let uuid := List.intercalate ['-'] (parts.take 5)
    let providedSig := parts.getD 5 []
    let expectedSig := (hexEncode (hmacSha256 (strBytes secret) (strBytes uuid))).take 16
    providedSig == expectedSig

/-- Spec-side acceptance predicate for device-id verification, written
    from the spec sentence as amended by claim C9's counterexample: the
    id must consist of six dash-separated groups, and the sixth group
    must equal the first 16 hex characters of the HMAC-SHA256 of the
    full five-group UUID, keyed directly with the server secret. -/
def specDeviceIDAccepts (deviceID secret : List Char) : Bool :=
  let parts := deviceID.splitOn '-'
  parts.length == 6 &&
    parts.getD 5 [] ==
      (hexEncode (hmacSha256 (strBytes secret)
        (strBytes (List.intercalate ['-'] (parts.take 5))))).take 16

/-! ### Go map helpers

Go maps keyed by strings are embedded as association lists; `mapInsert`
replaces any existing binding (Go assignment), `mapErase` removes the
binding (Go `delete`), `mapLookup` is indexing with its `ok` flag. -/

/-- Lookup in a Go map (`v, ok := m[k]` with `ok` as `Option`). -/
def mapLookup (m : List (String × α)) (k : String) : Option α :=
  (m.find? (fun e => e.1 == k)).map (fun e => e.2)

/-- Deletion from a Go map (`delete(m, k)`). -/
def mapErase (m : List (String × α)) (k : String) : List (String × α) :=
  m.filter (fun e => e.1 != k)

/-- Assignment into a Go map (`m[k] = v`). -/
def mapInsert (m : List (String × α)) (k : String) (v : α) : List (String × α) :=
  (k, v) :: mapErase m k

/-! ### The nonce stores

`internal/utils/nonce.go` holds the in-memory store: a map from nonce to
absolute expiry timestamp.  `internal/storage/sql.go` plus
`internal/nonce/storage.go` hold the SQL-backed store.  Time is Unix
seconds as `Nat`, passed explicitly for `time.Now()`. -/

/-- The error values returned by nonce stores: `NonceMissingError` and
    `NonceExpiredError` from `internal/utils/nonce.go`. -/
inductive NonceError where
  | missing (nonce : String)
  | expired (nonce : String) (expiry : Nat)
deriving DecidableEq

/-- State of `MemoryStore`: the `entries` map from nonce to expiry. -/
abbrev MemStore : Type := List (String × Nat)

/-- Embedding of `MemoryStore.Put`: reject `ttl ≤ 0`, else record
    `now + ttl` as the expiry of `nonce`.  `ttl` is an `Int` because Go's
    `time.Duration` is signed. -/
def MemoryStore.Put (now : Nat) (st : MemStore) (nonce : String) (ttl : Int) :
    Except String MemStore :=
  if ttl ≤ 0 then .error "ttl must be > 0"
  else .ok (mapInsert st nonce (now + ttl.toNat))

/-- Embedding of `MemoryStore.Consume`: absent nonce fails with
    `NonceMissingError`; a present nonce is deleted, and the call reports
    `NonceExpiredError` when `time.Now().After(exp)` (strictly past the
    expiry) and success otherwise. -/
def MemoryStore.Consume (now : Nat) (st : MemStore) (nonce : String) :
    (Bool × Option NonceError) × MemStore :=
  match mapLookup st nonce with
  | none => ((false, some (.missing nonce)), st)
  | some exp =>
    if exp < now then ((false, some (.expired nonce exp)), mapErase st nonce)
    else ((true, none), mapErase st nonce)

/-- Embedding of `MemoryStore.Exists`: non-destructive lookup; expired
    entries report `false`. -/
def MemoryStore.Exists (now : Nat) (st : MemStore) (nonce : String) : Bool :=
  match mapLookup st nonce with
  | none => false
  | some exp => !(exp < now)

/-- State of the SQL `nonces` table: rows `(nonce, expires_at)`. -/
abbrev NonceTable : Type := List (String × Nat)

/-- Embedding of `SQLProvider.ConsumeNonce`: the query
    `DELETE FROM nonces WHERE nonce = ?` with success reported as
    `rowsAffected > 0`.  Note that the query does not look at
    `expires_at`. -/
def SQLProvider.ConsumeNonce (tbl : NonceTable) (nonce : String) : Bool × NonceTable :=
  ((mapLookup tbl nonce).isSome, mapErase tbl nonce)

/-- Embedding of `SQLProvider.ExistsNonce`: the query
    `SELECT COUNT(1) FROM nonces WHERE nonce = ? AND expires_at > ?`. -/
def SQLProvider.ExistsNonce (now : Nat) (tbl : NonceTable) (nonce : String) : Bool :=
  match mapLookup tbl nonce with
  | none => false
  | some exp => now < exp

/-- Embedding of `SQLNonceStore.Consume` from `internal/nonce/storage.go`:
    wraps `SQLProvider.ConsumeNonce`, turning `false` into
    `NonceMissingError`; a deleted row is reported as plain success. -/
def SQLNonceStore.Consume (tbl : NonceTable) (nonce : String) :
    (Bool × Option NonceError) × NonceTable :=
  let (deleted, tbl2) := SQLProvider.ConsumeNonce tbl nonce
  if deleted then ((true, none), tbl2)
  else ((false, some (.missing nonce)), tbl2)

/-! ### The token service (`internal/jwt/jwt.go`)

Signed tokens are embedded as records carrying their claims, the MAC
algorithm named in the header, the key they were signed with, and a
well-formedness flag for the three-segment surface syntax.  Verifying a
signature against `secret` is modelled as comparing the signing key with
`secret`, the standard symbolic model of an unforgeable MAC (the
`golang-jwt` library itself is an external collaborator). -/

/-- MAC algorithm named in a token header. -/
inductive Alg where
  | hs256
  | other (name : String)
deriving DecidableEq

/-- The registered claims (`jti`, `iat`, `exp`, `aud`) shared by all
    claim variants. -/
structure RegisteredClaims where
  id : String
  iat : Nat
  exp : Nat
  aud : List String
deriving DecidableEq

/-- Claim for an entry access token (`EntryClaim`). -/
structure EntryClaim where
  entryId : String
  reg : RegisteredClaims
deriving DecidableEq

/-- Claim for an authentication session token (`AuthClaims`). -/
structure AuthClaims where
  userId : String
  mustRenew : Bool
  reg : RegisteredClaims
deriving DecidableEq

/-- Claim issued while a user requests an access code
    (`AccessCodeClaim`). -/
structure AccessCodeClaim where
  verify : String
  email : String
  entryId : String
  authenticateOnly : Bool
  reg : RegisteredClaims
deriving DecidableEq

/-- A signed compact token over claims `C`. -/
structure SignedToken (C : Type) where
  alg : Alg
  claims : C
  key : String
  wellFormed : Bool
deriving DecidableEq

/-- The error values surfaced by the jwt package: the sentinels
    `ErrInvalidNonce`, `ErrNonValidToken`, `ErrInvalidClaimType`, the
    parse failures of the jwt library, and the store errors it
    propagates. -/
inductive GoError where
  | invalidNonce
  | nonValidToken
  | invalidClaimType
  | malformedToken
  | algNotAllowed
  | signatureInvalid
  | tokenExpired
  | audienceMismatch
  | nonceMissing (nonce : String)
  | nonceExpired (nonce : String) (expiry : Nat)
deriving DecidableEq

/-- Map a store error to the error value the jwt package returns. -/
def NonceError.toGoError : NonceError → GoError
  | .missing n => .nonceMissing n
  | .expired n e => .nonceExpired n e

/-- Embedding of `GenerateJWT`: sign the claims with HS256 under the
    process-wide secret, producing a well-formed three-segment token. -/
def GenerateJWT (secret : String) (claims : C) : SignedToken C :=
  { alg := .hs256, claims := claims, key := secret, wellFormed := true }

/-- Embedding of the generic `decodeJWT`: parse, enforce the HS256
    allow-list, check the signature, the expiry against `now`, and
    (when `expectedAuds` is nonempty, from `jwt.WithAudience` options)
    membership of one expected audience in the claim's audience list.
    The store is untouched; `getReg` projects the registered claims. -/
def decodeJWT (now : Nat) (secret : String) (expectedAuds : List String)
    (getReg : C → RegisteredClaims) (tok : SignedToken C) : Except GoError C :=
  if !tok.wellFormed then .error .malformedToken
  else if tok.alg != .hs256 then .error .algNotAllowed
  else if tok.key != secret then .error .signatureInvalid
  else if (getReg tok.claims).exp ≤ now then .error .tokenExpired
  else if !expectedAuds.isEmpty && !(expectedAuds.any fun a => (getReg tok.claims).aud.contains a)
    then .error .audienceMismatch
  else .ok tok.claims

/-- Embedding of `ConsumeClaimNonce`: consume the claim's `jti` in the
    nonce store; a store error is returned as-is, and `ErrInvalidNonce`
    is returned when the store reports failure without an error. -/
def ConsumeClaimNonce (now : Nat) (reg : RegisteredClaims) (st : MemStore) :
    Except GoError Unit × MemStore :=
  let ((ok1, err), st2) := MemoryStore.Consume now st reg.id
  match err with
  | some e => (.error e.toGoError, st2)
  | none => if !ok1 then (.error .invalidNonce, st2) else (.ok (), st2)

/-- Embedding of `DecodeEntryJWT`: decode and validate the token, then
    consume its nonce from the store to prevent replay; the consume
    error (or `ErrInvalidNonce`) is surfaced and the claims are returned
    only when consumption succeeded. -/
def DecodeEntryJWT (now : Nat) (secret : String) (tok : SignedToken EntryClaim)
    (st : MemStore) : Except GoError EntryClaim × MemStore :=
  match decodeJWT now secret [] (fun c => c.reg) tok with
  | .error e => (.error e, st)
  | .ok claims =>
    let ((ok1, err), st2) := MemoryStore.Consume now st claims.reg.id
    match err with
    | some e => (.error e.toGoError, st2)
    | none => if !ok1 then (.error .invalidNonce, st2) else (.ok claims, st2)

/-- Embedding of `DecodeAuthJWT`: decode only; the nonce is deliberately
    not consumed (auth tokens are long-lived). -/
def DecodeAuthJWT (now : Nat) (secret : String) (tok : SignedToken AuthClaims)
    (st : MemStore) : Except GoError AuthClaims × MemStore :=
  (decodeJWT now secret [] (fun c => c.reg) tok, st)

/-- Embedding of `DecodeAccessCodeJWT`: decode with the caller's audience
    options only; the nonce is not consumed (it must be consumed by the
    caller after validation). -/
def DecodeAccessCodeJWT (now : Nat) (secret : String) (expectedAuds : List String)
    (tok : SignedToken AccessCodeClaim) (st : MemStore) :
    Except GoError AccessCodeClaim × MemStore :=
  (decodeJWT now secret expectedAuds (fun c => c.reg) tok, st)

/-- Embedding of `mustCreateRegisteredClaim`: generate a nonce (passed in
    as `nonce`, the randomness made explicit), store it with TTL
    `ttl + 10` (the clock-skew margin), and build the registered claims
    with `iat = now` and `exp = now + ttl`.  `Put` failures are logged
    and ignored by the source (`Nonce` only logs), and cannot happen
    here since the TTL is positive. -/
def mustCreateRegisteredClaim (now : Nat) (nonce : String) (ttl : Nat) (st : MemStore) :
    RegisteredClaims × MemStore :=
  let st2 := match MemoryStore.Put now st nonce ((ttl : Int) + 10) with
    | .ok st2 => st2
    | .error _ => st
  ({ id := nonce, iat := now, exp := now + ttl, aud := [] }, st2)

/-- Embedding of `NewEntryClaim`: an entry claim for `entryId` with a
    fresh registered claim of TTL `tokenTTL` (`Cfg.TokenTTL`). -/
def NewEntryClaim (now : Nat) (nonce : String) (tokenTTL : Nat) (entryId : String)
    (st : MemStore) : EntryClaim × MemStore :=
  let (reg, st2) := mustCreateRegisteredClaim now nonce tokenTTL st
  ({ entryId := entryId, reg := reg }, st2)

/-- Embedding of `NewAccessCodeClaim`: an access-code claim carrying the
    OTP fingerprint `verify`, the email and the entry id, with a fresh
    registered claim of TTL `ttl`. -/
def NewAccessCodeClaim (now : Nat) (nonce : String) (verify email entryId : String)
    (ttl : Nat) (st : MemStore) : AccessCodeClaim × MemStore :=
  let (reg, st2) := mustCreateRegisteredClaim now nonce ttl st
  ({ verify := verify, email := email, entryId := entryId,
     authenticateOnly := false, reg := reg }, st2)

/-! ### Email login flow (`internal/routes/auth_email.go`)

The handlers are embedded as functions from their request data and the
relevant process state to a response plus the updated state.  External
collaborators are parameters: `otpEnc` stands for `otpEncode` (Argon2id
key derivation plus HMAC, computed by `golang.org/x/crypto`), and the
random OTP / nonce values are explicit arguments. -/

/-- Link TTL of the email login flow, `LINK_TTL` (10 minutes), in
    seconds. -/
def LINK_TTL : Nat := 600

/-- Audience tag of email-link tokens. -/
def JWT_AUDIENCE_EMAIL_LINK : String := "email_link"

/-- Audience tag of email-OTP tokens. -/
def JWT_AUDIENCE_EMAIL_OTP : String := "email_otp"

/-- Audience tag of the derived login tokens. -/
def JWT_AUDIENCE_EMAIL_LOGIN : String := "email_login"

/-- Embedding of `otpVerify`: recompute the fingerprint and compare
    (`hmac.Equal` is byte equality); `otpEnc` stands for `otpEncode`. -/
def otpVerify (otpEnc : String → String → String) (data key hash : String) : Bool :=
  otpEnc data key == hash

/-- Embedding of `access.ValidEmail`: empty emails are missing; the email
    must contain a `@` that is neither at position 0 nor last.  Returns
    `none` for a valid email and the error message otherwise. -/
def ValidEmail (email : List Char) : Option String :=
  if email.isEmpty then some "email is required"
  else
    match email.findIdx? (fun c => c == '@') with
    | none => some "invalid email format"
    | some at2 => if at2 < 1 || at2 == email.length - 1 then some "invalid email format" else none

/-- Go `strings.Trim(s, " ")`: strip leading and trailing spaces. -/
def trimSpaces (s : List Char) : List Char :=
  ((s.dropWhile (fun c => c == ' ')).reverse.dropWhile (fun c => c == ' ')).reverse

/-- Response of the `POST /auth/email/login` handler: HTTP status and the
    `otpclaim` token returned on success. -/
structure LoginResponse where
  status : Nat
  otpclaim : Option (SignedToken AccessCodeClaim)
deriving DecidableEq

/-- Embedding of the token-pair issuance inside `POST /auth/email/login`
    (`EmailLoginRoute`): build one base access-code claim (one nonce),
    then sign two tokens from it differing only in audience —
    `email_otp` returned to the scanner and `email_link` embedded in the
    mailed URL. -/
def emailLoginIssuePair (now : Nat) (secret nonce code emailAddr entryId : String)
    (st : MemStore) :
    (SignedToken AccessCodeClaim × SignedToken AccessCodeClaim) × MemStore :=
  let (baseClaim, st2) := NewAccessCodeClaim now nonce code emailAddr entryId LINK_TTL st
  let otpClaim := { baseClaim with reg := { baseClaim.reg with aud := [JWT_AUDIENCE_EMAIL_OTP] } }
  let linkClaim := { baseClaim with reg := { baseClaim.reg with aud := [JWT_AUDIENCE_EMAIL_LINK] } }
  ((GenerateJWT secret otpClaim, GenerateJWT secret linkClaim), st2)

/-- Embedding of the `POST /auth/email/login` handler of
    `EmailLoginRoute`: validate and trim the email, check it against the
    access list (`userExists`), generate the OTP (`otp`), fingerprint it,
    issue the token pair, render and send the email (`sendOk` is the
    SMTP collaborator's outcome; in debug mode the send is skipped for
    the test user), and answer 200 with the `otpclaim` token.  The
    handler keeps no per-address state. -/
def emailLoginPost (now : Nat) (secret : String) (otpEnc : String → String → String)
    (accessList : List String) (emailForm : List Char) (otp nonce entryId : String)
    (sendOk : Bool) (st : MemStore) : LoginResponse × MemStore :=
  if emailForm.isEmpty then ({ status := 400, otpclaim := none }, st)
  else
    let emailAddr := trimSpaces emailForm
    match ValidEmail emailAddr with
    | some _ => ({ status := 400, otpclaim := none }, st)
    | none =>
      let emailStr := String.mk emailAddr
      if !accessList.contains emailStr then ({ status := 401, otpclaim := none }, st)
      else
        let code := otpEnc otp secret
        let ((otpToken, _linkToken), st2) :=
          emailLoginIssuePair now secret nonce code emailStr entryId st
        if !sendOk then ({ status := 500, otpclaim := none }, st2)
        else ({ status := 200, otpclaim := some otpToken }, st2)

/-- Session state of one browser: the `auth_token` cookie's user, if a
    session cookie is set. -/
structure SessionState where
  cookieUser : Option String
deriving DecidableEq

/-- Embedding of `renewAuth` as called by `login` (`forceRenew = true`,
    no prior auth cookie in the scanner's request): issue a fresh auth
    claim whose nonce `authNonce` is stored, and set the session
    cookie. -/
def renewAuth (now : Nat) (userId authNonce : String) (authTTL : Nat) (st : MemStore) :
    SessionState × MemStore :=
  let (_, st2) := mustCreateRegisteredClaim now authNonce authTTL st
  ({ cookieUser := some userId }, st2)

/-- Embedding of `login` in `auth_email.go`: renew the auth cookie for
    the claim's email, then consume the claim's nonce — with the
    returned error of `ConsumeClaimNonce` discarded. -/
def login (now : Nat) (claim : AccessCodeClaim) (authNonce : String) (authTTL : Nat)
    (st : MemStore) : SessionState × MemStore :=
  let (sess, st2) := renewAuth now claim.email authNonce authTTL st
  let (_, st3) := ConsumeClaimNonce now claim.reg st2
  (sess, st3)

/-- Response of the `POST /auth/email/verify` handler: the HTTP status,
    the JSON error or success message, and the session cookie state
    after the request. -/
structure VerifyResponse where
  status : Nat
  message : String
  session : SessionState
deriving DecidableEq

/-- Embedding of the `POST /auth/email/verify` handler of
    `EmailLoginRoute`: require a 6-character OTP and an `otpclaim`
    token, decode the token with audience `email_otp`
    (`DecodeAccessCodeJWT`, which does not consume or check the nonce),
    answer 400 if the OTP fingerprint mismatches, and otherwise log the
    user in via `login` and answer 200.  The `err == jwt.ErrInvalidNonce`
    branch of the source is kept as written. -/
def verifyPost (now : Nat) (secret : String) (otpEnc : String → String → String)
    (otp : String) (otpclaim : Option (SignedToken AccessCodeClaim))
    (authNonce : String) (authTTL : Nat) (st : MemStore) : VerifyResponse × MemStore :=
  if otp == "" then
    ({ status := 400, message := "OTP Code is required", session := ⟨none⟩ }, st)
  else if otp.length ≠ 6 then
    ({ status := 400, message := "Invalid OTP code format", session := ⟨none⟩ }, st)
  else
    match otpclaim with
    | none => ({ status := 400, message := "OTP Claim is required", session := ⟨none⟩ }, st)
    | some tok =>
      match DecodeAccessCodeJWT now secret [JWT_AUDIENCE_EMAIL_OTP] tok st with
      | (.error e, st2) =>
        if e == .invalidNonce then
          ({ status := 400,
             message := "Code has been already been used. Please request a new login link.",
             session := ⟨none⟩ }, st2)
        else
          ({ status := 400, message := "Failed to decode OTP claim.", session := ⟨none⟩ }, st2)
      | (.ok emailClaim, st2) =>
        if !otpVerify otpEnc otp secret emailClaim.verify then
          ({ status := 400, message := "Invalid OTP code. Please check and try again.",
             session := ⟨none⟩ }, st2)
        else
          let (sess, st3) := login now emailClaim authNonce authTTL st2
          ({ status := 200, message := "OTP verification successful", session := sess }, st3)

/-! ### The SSE status loop (`GET /auth/email/status`)

The loop body compares the error returned by the verify-store's
`Consume` against freshly allocated error values:
`case &NonceMissingError{}:` and `case &NonceExpiredError{}:`.  In Go,
comparing interface values holding pointers compares the pointers, and a
fresh allocation of a nonzero-size struct is distinct from every live
pointer.  The embedding makes allocation explicit: error values carry
the address they were allocated at (a counter), `Consume` allocates its
error at the current counter, the two `case` literals are allocated at
the next addresses, and interface comparison compares addresses. -/

/-- A Go error held as an interface value: the pointed-to payload plus
    the address of its allocation. -/
structure PtrNonceError where
  addr : Nat
  val : NonceError
deriving DecidableEq

/-- Go `==` on two error interface values whose dynamic types are
    pointer types: pointer (address) equality. -/
def goErrEq (a b : PtrNonceError) : Bool := a.addr == b.addr

/-- `MemoryStore.Consume`, with the returned error allocated at the
    current allocation counter `alloc`; returns the next counter. -/
def MemoryStore.consumeAlloc (now : Nat) (st : MemStore) (nonce : String) (alloc : Nat) :
    (Bool × Option PtrNonceError) × MemStore × Nat :=
  let ((ok1, err), st2) := MemoryStore.Consume now st nonce
  match err with
  | none => ((ok1, none), st2, alloc)
  | some e => ((ok1, some ⟨alloc, e⟩), st2, alloc + 1)

/-- One SSE frame of the status loop: the `status` field, the optional
    `error` and `redirect` fields, and whether the handler returns
    (closing the stream) after emitting it. -/
structure TickFrame where
  status : String
  errorMsg : Option String
  redirect : Option String
  closeStream : Bool
deriving DecidableEq

/-- Embedding of one tick of the `GET /auth/email/status` event loop:
    probe the verify-store by consuming the claim id; on `(true, nil)`
    emit `confirmed` with the login redirect; on an error, switch on the
    error value against freshly allocated `&NonceMissingError{}` and
    `&NonceExpiredError{}` literals (Go pointer comparison), with
    `pending` as the default; close the stream after `confirmed` or
    `expired` frames. -/
def statusTick (now : Nat) (claimId : String) (loginUrl : String)
    (st : MemStore) (alloc : Nat) : TickFrame × MemStore × Nat :=
  let ((confirmed, err), st2, a2) := MemoryStore.consumeAlloc now st claimId alloc
  match err with
  | none =>
    if confirmed then
      ({ status := "confirmed", errorMsg := none, redirect := some loginUrl,
         closeStream := true }, st2, a2)
    else
      ({ status := "pending", errorMsg := none, redirect := none, closeStream := false },
        st2, a2)
  | some e =>
    let caseMissing : PtrNonceError := ⟨a2, .missing ""⟩
    let caseExpired : PtrNonceError := ⟨a2 + 1, .expired "" 0⟩
    if goErrEq e caseMissing then
      ({ status := "pending", errorMsg := none, redirect := none, closeStream := false },
        st2, a2 + 2)
    else if goErrEq e caseExpired then
      ({ status := "expired",
         errorMsg := some "Login link has expired. Please request a new login link.",
         redirect := none, closeStream := true }, st2, a2 + 2)
    else
      ({ status := "pending", errorMsg := none, redirect := none, closeStream := false },
        st2, a2 + 2)

/-! ### The entry-token cache (`getEntryToken`)

One current entry token is cached per entry id.  A cached token is
validated by `DecodeEntryJWT` — which consumes the token's nonce — and
then rotated only when its `exp` has passed. -/

/-- Embedding of `genEntryToken`: build a fresh entry claim (storing its
    nonce) and sign it. -/
def genEntryToken (now : Nat) (secret nonce : String) (tokenTTL : Nat) (entryID : String)
    (st : MemStore) : SignedToken EntryClaim × MemStore :=
  let (claim, st2) := NewEntryClaim now nonce tokenTTL entryID st
  (GenerateJWT secret claim, st2)

/-- The entry-token cache, `entryTokens.tokens`. -/
abbrev EntryTokenCache : Type := List (String × SignedToken EntryClaim)

/-- Embedding of `getEntryToken`: look up the cached token for
    `entryID`; when present, check the three-segment format, decode it
    with `DecodeEntryJWT` (failing with "invalid token payload" on any
    decode error) and mark for re-creation when `now` is past the
    claim's `exp`; when absent or expired, generate a fresh token
    (nonce `nonce`) and store it.  The nonce-store side effects of the
    decode are threaded through. -/
def getEntryToken (now : Nat) (secret nonce : String) (tokenTTL : Nat) (entryID : String)
    (cache : EntryTokenCache) (st : MemStore) :
    Except String (SignedToken EntryClaim) × EntryTokenCache × MemStore :=
  let create : EntryTokenCache → MemStore →
      Except String (SignedToken EntryClaim) × EntryTokenCache × MemStore :=
    fun cache2 st2 =>
      let (tok, st3) := genEntryToken now secret nonce tokenTTL entryID st2
      (.ok tok, mapInsert cache2 entryID tok, st3)
  match mapLookup cache entryID with
  | none => create cache st
  | some token =>
    if !token.wellFormed then (.error "invalid token format", cache, st)
    else
      match DecodeEntryJWT now secret token st with
      | (.error _, st2) => (.error "invalid token payload", cache, st2)
      | (.ok claims, st2) =>
        if claims.reg.exp < now then create cache st2
        else (.ok token, cache, st2)

/-! ### The prototype email provider (`auth/email.go`)

`NewEmailProvider` carries the per-address send-interval cache
`emailSentCache`: a map from email to the time the last mail was sent.
This handler is not mounted under `/auth/email`. -/

/-- Embedding of `isValidEmail` from `auth/email.go`. -/
def isValidEmail (email : List Char) : Bool :=
  email.contains '@' && email.contains '.'

/-- Embedding of the POST handler of `auth.NewEmailProvider`: reject
    invalid emails; answer 429 when a mail was sent to the address less
    than `interval` seconds ago (`time.Since(lastSent)` compared with
    `EMAIL_SEND_INTERVAL`); otherwise record `now` for the address and
    answer 200.  The delayed cache cleanup goroutine is external to one
    request and not part of this step. -/
def emailProviderPost (now : Nat) (interval : Nat) (emailForm : List Char)
    (cache : List (String × Nat)) : Nat × List (String × Nat) :=
  let email := trimSpaces emailForm
  if email.isEmpty || !isValidEmail email then (400, cache)
  else
    let emailStr := String.mk email
    match mapLookup cache emailStr with
    | some lastSent =>
      if now - lastSent < interval then (429, cache)
      else (200, mapInsert cache emailStr now)
    | none => (200, mapInsert cache emailStr now)

/-! ### Device provisioning (`ProvisioningApi`, `POST /register`)

Device records live in the `devices` table; `getProvisioning` creates a
pending record on first contact and the register handler then enforces
the client-IP binding before reporting the provisioning status.  Aborts
attach an error to the request; the terminal middleware maps the last
attached error to its HTTP status and stop code via `errorStatusMap` and
`errorInfoMap` (`internal/routes/errors.go`). -/

/-- Device status values (`storage.DeviceStatus`); `other` covers the
    unknown-status default branch. -/
inductive DeviceStatus where
  | pending
  | approved
  | rejected
  | other (s : String)
deriving DecidableEq

/-- A row of the `devices` table. -/
structure Device where
  deviceID : String
  clientIP : String
  status : DeviceStatus
  createdAt : Nat
  updatedAt : Nat
  approvedBy : String
deriving DecidableEq

/-- The provisioning errors attached by the register path
    (`internal/routes/errors.go` and `part_008`). -/
inductive RegError where
  | deviceIDRequired
  | devicePendingApproval
  | deviceRejected
  | deviceStatusUnknown
  | failedToCreateDevice
  | clientIPMismatch
  | deviceIDVerificationFailed
  | invalidRequest
deriving DecidableEq

/-- The HTTP status `errorStatusMap` assigns to a register-path error
    (unknown errors default to 500). -/
def GetErrorStatus : RegError → Nat
  | .deviceIDRequired => 400
  | .devicePendingApproval => 202
  | .deviceRejected => 403
  | .deviceStatusUnknown => 500
  | .failedToCreateDevice => 500
  | .clientIPMismatch => 403
  | .invalidRequest => 400
  | .deviceIDVerificationFailed => 500

/-- The stop codes `errorInfoMap` assigns to a register-path error. -/
def GetErrorStopCodes : RegError → List String
  | .deviceIDRequired => ["DEVICE_ID_REQUIRED"]
  | .devicePendingApproval => ["DEVICE_PENDING"]
  | .deviceRejected => ["DEVICE_REJECTED"]
  | .clientIPMismatch => ["IP_MISMATCH"]
  | _ => []

/-- State of the `devices` table, keyed by device id. -/
abbrev DeviceTable : Type := List (String × Device)

/-- Embedding of `getProvisioning`: empty ids fail; unknown devices are
    inserted as `pending` with the requester's client IP and reported as
    pending-approval; known devices are returned, with `rejected` and
    unknown statuses reported as errors. -/
def getProvisioning (now : Nat) (clientIP : String) (db : DeviceTable) (deviceID : String) :
    (Option RegError × Device) × DeviceTable :=
  let emptyDevice : Device :=
    { deviceID := "", clientIP := "", status := .other "", createdAt := 0,
      updatedAt := 0, approvedBy := "" }
  if deviceID == "" then ((some .deviceIDRequired, emptyDevice), db)
  else
    match mapLookup db deviceID with
    | none =>
      let newDevice : Device :=
        { deviceID := deviceID, clientIP := clientIP, status := .pending,
          createdAt := now, updatedAt := now, approvedBy := "" }
      ((some .devicePendingApproval, newDevice), mapInsert db deviceID newDevice)
    | some device =>
      match device.status with
      | .approved => ((none, device), db)
      | .pending => ((none, device), db)
      | .rejected => ((some .deviceRejected, device), db)
      | .other _ => ((some .deviceStatusUnknown, emptyDevice), db)

/-- Outcome of the register handler: the errors attached to the request
    (in order) and the JSON response written directly, if any.  The
    terminal error middleware derives the HTTP status from the last
    attached error. -/
structure RegisterOutcome where
  aborts : List RegError
  okStatus : Option Nat
  responseDeviceID : String
deriving DecidableEq

/-- HTTP status of a register outcome: a directly written response wins,
    else the status of the last attached error (500 if none, which does
    not occur). -/
def RegisterOutcome.httpStatus (o : RegisterOutcome) : Nat :=
  match o.okStatus with
  | some s => s
  | none =>
    match o.aborts.getLast? with
    | some e => GetErrorStatus e
    | none => 500

/-- Embedding of the `POST /register` handler of `ProvisioningApi`
    (`part_008`): verify a client-supplied device id against the server
    secret (or generate one, `genID`), fetch or create the provisioning
    record, attach the provisioning error if any (the source does not
    return there), enforce that the requester's IP equals the stored
    `client_ip` — aborting with `ErrClientIPMismatch` — and finally
    answer by stored status: `approved` 200, `pending` 202, `rejected`
    aborts. -/
def registerPost (now : Nat) (secret : List Char) (reqDeviceID : List Char)
    (genID : List Char) (clientIP : String) (db : DeviceTable) :
    RegisterOutcome × DeviceTable :=
  let deviceID : List Char := if reqDeviceID.isEmpty then genID else reqDeviceID
  if !reqDeviceID.isEmpty && !VerifyDeviceID reqDeviceID secret then
    ({ aborts := [.deviceIDVerificationFailed], okStatus := none, responseDeviceID := "" }, db)
  else
    let deviceIDStr := String.mk deviceID
    let ((errOpt, provisioning), db2) := getProvisioning now clientIP db deviceIDStr
    let aborts0 : List RegError := match errOpt with
      | some e => [e]
      | none => []
    if provisioning.clientIP != clientIP then
      ({ aborts := aborts0 ++ [.clientIPMismatch], okStatus := none,
         responseDeviceID := "" }, db2)
    else
      match provisioning.status with
      | .approved =>
        ({ aborts := aborts0, okStatus := some 200, responseDeviceID := deviceIDStr }, db2)
      | .pending =>
        ({ aborts := aborts0, okStatus := some 202, responseDeviceID := deviceIDStr }, db2)
      | .rejected =>
        ({ aborts := aborts0 ++ [.deviceRejected], okStatus := none,
           responseDeviceID := "" }, db2)
      | .other _ =>
        ({ aborts := aborts0, okStatus := none, responseDeviceID := "" }, db2)

/-! ## Helper lemmas -/

theorem mapLookup_erase (m : List (String × α)) (k : String) :
    mapLookup (mapErase m k) k = none := by
  have h : List.find? (fun e => e.1 == k) (mapErase m k) = none := by
    rw [List.find?_eq_none]
    intro e he
    simpa [bne] using (List.mem_filter.mp he).2
  simp [mapLookup, h]

theorem mapErase_of_lookup_none (m : List (String × α)) (k : String)
    (h : mapLookup m k = none) : mapErase m k = m := by
  simp only [mapLookup] at h
  have h2 : List.find? (fun e => e.1 == k) m = none := by
    cases hf : List.find? (fun e => e.1 == k) m with
    | none => rfl
    | some e => rw [hf] at h; simp at h
  rw [List.find?_eq_none] at h2
  apply List.filter_eq_self.mpr
  intro e he
  simpa [bne] using h2 e he

theorem mapLookup_insert (m : List (String × α)) (k : String) (v : α) :
    mapLookup (mapInsert m k v) k = some v := by
  simp [mapLookup, mapInsert, List.find?_cons]

theorem mapLookup_nil (k : String) : mapLookup ([] : List (String × α)) k = none := rfl

/-! ## Validation of the SHA-256 embedding

The constants are re-derived from their FIPS 180-4 definition and the
digest checked against the published test vectors. -/

set_option maxRecDepth 1000000 in
/-- The round-constant literals equal the fractional parts of the cube
    roots of the first 64 primes. -/
theorem sha256K_derivation :
    sha256K = sha256Primes.map fun p => cbrt (p * 2 ^ 96) % M32 := by decide

set_option maxRecDepth 1000000 in
/-- The initial-state literals equal the fractional parts of the square
    roots of the first 8 primes. -/
theorem sha256H0_derivation :
    sha256H0 = (sha256Primes.take 8).map fun p => isqrt (p * 2 ^ 64) % M32 := by decide

set_option maxRecDepth 1000000 in
/-- FIPS 180-4 test vector: the SHA-256 digest of `"abc"`. -/
theorem sha256_abc_vector :
    hexEncode (sha256 (strBytes "abc".data)) =
      "ba7816bf8f01cfea414140de5dae2223b00361a396177a9cb410ff61f20015ad".data := by decide

set_option maxRecDepth 1000000 in
/-- RFC 4231 test case 1 for HMAC-SHA256. -/
theorem hmacSha256_rfc4231_vector :
    hexEncode (hmacSha256 (List.replicate 20 11) (strBytes "Hi There".data)) =
      "b0344c61d8db38535ca8afceaf0bf12b881dc200c9833da726e9376c2e32cff7".data := by decide

/-! ## Claim C1 — nonce consumption in the two backends -/

/-- C1 (amended): in the in-memory store, `Consume` returns `(true, nil)`
    and removes the nonce when it is present and not past its expiry,
    `(false, NonceMissing)` when absent — in particular on any second
    consume after a successful one — and `(false, NonceExpired)` while
    removing the nonce when it is present but past expiry.  In the SQL
    backend, an absent nonce likewise yields `(false, NonceMissing)`,
    but a present nonce is deleted and reported as `(true, nil)` even
    when it is past its expiry: the `DELETE` ignores `expires_at`, so
    the `NonceExpired` case of the claim never occurs there. -/
theorem C1_consume_both_backends (now : Nat) (st : MemStore) (tbl : NonceTable) (n : String) :
    ((∀ e, mapLookup st n = some e → ¬e < now →
        MemoryStore.Consume now st n = ((true, none), mapErase st n)) ∧
      (mapLookup st n = none →
        MemoryStore.Consume now st n = ((false, some (.missing n)), st)) ∧
      (∀ e, mapLookup st n = some e → e < now →
        MemoryStore.Consume now st n = ((false, some (.expired n e)), mapErase st n)) ∧
      (∀ e, mapLookup st n = some e →
        (MemoryStore.Consume now ((MemoryStore.Consume now st n).2) n).1
          = (false, some (.missing n)))) ∧
    ((∀ e, mapLookup tbl n = some e →
        SQLNonceStore.Consume tbl n = ((true, none), mapErase tbl n)) ∧
      (mapLookup tbl n = none →
        SQLNonceStore.Consume tbl n = ((false, some (.missing n)), tbl))) := by
  refine ⟨⟨?_, ?_, ?_, ?_⟩, ?_, ?_⟩
  · intro e he hlt
    simp [MemoryStore.Consume, he, hlt]
  · intro h
    simp [MemoryStore.Consume, h]
  · intro e he hlt
    simp [MemoryStore.Consume, he, hlt]
  · intro e he
    have h2 : (MemoryStore.Consume now st n).2 = mapErase st n := by
      by_cases hlt : e < now <;> simp [MemoryStore.Consume, he, hlt]
    rw [h2]
    simp [MemoryStore.Consume, mapLookup_erase]
  · intro e he
    simp [SQLNonceStore.Consume, SQLProvider.ConsumeNonce, he]
  · intro h
    simp [SQLNonceStore.Consume, SQLProvider.ConsumeNonce, h,
      mapErase_of_lookup_none _ _ h]

/-- Witness for C1 at concrete inputs: a store holding nonce `"n"`
    unexpired, an empty store, an expired entry, and both SQL cases. -/
theorem C1_consume_both_backends_witness :
    (MemoryStore.Consume 10 [("n", 20)] "n" = ((true, none), []) ∧
      MemoryStore.Consume 10 [] "n" = ((false, some (.missing "n")), []) ∧
      MemoryStore.Consume 10 [("n", 5)] "n" = ((false, some (.expired "n" 5)), []) ∧
      (MemoryStore.Consume 10 ((MemoryStore.Consume 10 [("n", 20)] "n").2) "n").1
        = (false, some (.missing "n")) ∧
      SQLNonceStore.Consume [("n", 20)] "n" = ((true, none), []) ∧
      SQLNonceStore.Consume [] "n" = ((false, some (.missing "n")), [])) := by
  have h1 := C1_consume_both_backends 10 [("n", 20)] [("n", 20)] "n"
  have h2 := C1_consume_both_backends 10 [("n", 5)] [] "n"
  have h3 := C1_consume_both_backends 10 [] [] "n"
  refine ⟨?_, ?_, ?_, ?_, ?_, ?_⟩
  · simpa using h1.1.1 20 (by decide) (by decide)
  · simpa using h3.1.2.1 (by decide)
  · simpa using h2.1.2.2.1 5 (by decide) (by decide)
  · simpa using h1.1.2.2.2 20 (by decide)
  · simpa using h1.2.1 20 (by decide)
  · simpa using h3.2.2 (by decide)

/-- C1 counterexample: in the SQL backend a present-but-expired nonce
    (expiry 5, any later time) is consumed as `(true, nil)` — it is
    removed, but the claimed `(false, NonceExpired{expiry})` result does
    not happen: `SQLNonceStore.Consume` takes no clock at all. -/
theorem C1_sql_expired_counterexample :
    SQLNonceStore.Consume [("n", 5)] "n" = ((true, none), []) ∧
      ((true, none) : Bool × Option NonceError) ≠ (false, some (.expired "n" 5)) := by
  constructor
  · decide
  · decide

/-! ## Claim C4 — replay of `POST /auth/email/verify` -/

/-- C4 evaluated at the failing input: an `otpclaim` token whose shared
    `jti` (`"n1"`) was already consumed (absent from the store), with the
    correct OTP.  `DecodeAccessCodeJWT` does not check the nonce, the
    `jwt.ErrInvalidNonce` branch is unreachable, `otpVerify` succeeds,
    and `login` sets a fresh session cookie while the failed
    `ConsumeClaimNonce` result is discarded: the handler answers 200
    "OTP verification successful" and establishes a session — not the
    claimed 400 `VERIFY_TOKEN_USED`. -/
theorem C4_replay_returns_200 :
    verifyPost 10 "s" (fun d k => d ++ k) "123456"
        (some (GenerateJWT "s"
          { verify := "123456s", email := "user@example.com", entryId := "Ag C331",
            authenticateOnly := false,
            reg := { id := "n1", iat := 0, exp := 600, aud := [JWT_AUDIENCE_EMAIL_OTP] } }))
        "a1" 691200 [] =
      ({ status := 200, message := "OTP verification successful",
         session := ⟨some "user@example.com"⟩ }, [("a1", 691220)]) ∧
      (200 : Nat) ≠ 400 := by
  exact ⟨rfl, by decide⟩

/-! ## Claim C5 — the SSE status loop on an expired login attempt -/

/-- C5 evaluated at the failing input: the verify-store holds the claim
    id `"jti1"` with expiry 5 and the tick runs at time 10.  The store's
    `Consume` does return `NonceExpiredError`, but the `switch` compares
    it with freshly allocated error values by pointer, so no case
    matches: the emitted frame is `pending` and the stream stays open —
    not the claimed `expired` frame with stream close.  The expired
    entry is deleted by the probe, so the following tick (missing nonce)
    emits `pending` again. -/
theorem C5_expired_tick_emits_pending :
    statusTick 10 "jti1" "url" [("jti1", 5)] 0 =
      ({ status := "pending", errorMsg := none, redirect := none, closeStream := false },
        [], 3) ∧
    statusTick 10 "jti1" "url" [] 3 =
      ({ status := "pending", errorMsg := none, redirect := none, closeStream := false },
        [], 6) ∧
    ("pending" : String) ≠ "expired" := by
  refine ⟨rfl, rfl, by decide⟩

/-! ## Claim C6 — the entry-token cache under consecutive calls -/

/-- C6 evaluated at the failing input: three consecutive
    `getEntryToken` calls for `"entry1"` at times 10, 11, 12, all well
    inside the token's validity window (`exp = 70`).  The first call
    issues and caches a token, the second returns the cached token but —
    because the cached token is validated with `DecodeEntryJWT` —
    consumes its nonce as a side effect, and the third call therefore
    fails with "invalid token payload" instead of returning the cached
    token. -/
theorem C6_third_call_fails :
    (getEntryToken 10 "s" "n1" 60 "entry1" [] []).1 =
      .ok (GenerateJWT "s"
        { entryId := "entry1", reg := { id := "n1", iat := 10, exp := 70, aud := [] } }) ∧
    (getEntryToken 11 "s" "n2" 60 "entry1"
        (getEntryToken 10 "s" "n1" 60 "entry1" [] []).2.1
        (getEntryToken 10 "s" "n1" 60 "entry1" [] []).2.2).1 =
      .ok (GenerateJWT "s"
        { entryId := "entry1", reg := { id := "n1", iat := 10, exp := 70, aud := [] } }) ∧
    (getEntryToken 12 "s" "n3" 60 "entry1"
        (getEntryToken 11 "s" "n2" 60 "entry1"
          (getEntryToken 10 "s" "n1" 60 "entry1" [] []).2.1
          (getEntryToken 10 "s" "n1" 60 "entry1" [] []).2.2).2.1
        (getEntryToken 11 "s" "n2" 60 "entry1"
          (getEntryToken 10 "s" "n1" 60 "entry1" [] []).2.1
          (getEntryToken 10 "s" "n1" 60 "entry1" [] []).2.2).2.2).1 =
      .error "invalid token payload" := by
  refine ⟨rfl, rfl, rfl⟩

/-! ## Decode and consume helper lemmas -/

theorem decodeJWT_generateJWT (now : Nat) (secret : String) (auds : List String)
    (getReg : C → RegisteredClaims) (claims : C)
    (hexp : ¬(getReg claims).exp ≤ now)
    (haud : auds.isEmpty = true ∨ (auds.any fun a => (getReg claims).aud.contains a) = true) :
    decodeJWT now secret auds getReg (GenerateJWT secret claims) = .ok claims := by
  simp only [decodeJWT, GenerateJWT, hexp]
  simp [hexp]
  intro hne
  rcases haud with haud | haud
  · exact absurd (List.isEmpty_iff.mp haud) hne
  · simpa using haud

theorem ConsumeClaimNonce_present (now : Nat) (reg : RegisteredClaims) (st : MemStore)
    (e : Nat) (hl : mapLookup st reg.id = some e) (he : ¬e < now) :
    ConsumeClaimNonce now reg st = (.ok (), mapErase st reg.id) := by
  simp [ConsumeClaimNonce, MemoryStore.Consume, hl, he]

theorem ConsumeClaimNonce_absent (now : Nat) (reg : RegisteredClaims) (st : MemStore)
    (hl : mapLookup st reg.id = none) :
    ConsumeClaimNonce now reg st = (.error (.nonceMissing reg.id), st) := by
  simp [ConsumeClaimNonce, MemoryStore.Consume, hl, NonceError.toGoError]

/-! ## Claim C2 — the paired email-link / email-OTP tokens -/

/-- C2 (amended): one `POST /auth/email/login` issues the OTP and link
    tokens from a single base claim, so they carry the same `jti` (the
    generated nonce).  Consuming that `jti` through
    `ConsumeClaimNonce` via either token succeeds once; afterwards,
    signature/audience verification of the other token still succeeds
    (decoding never touches the store), but consuming the other token's
    nonce fails — with the store's `NonceMissingError`, which
    `ConsumeClaimNonce` returns as-is; the `jwt.ErrInvalidNonce` value
    named by the claim is only produced when the store reports failure
    without an error, which the in-memory store never does. -/
theorem C2_paired_tokens (now now2 : Nat) (secret nonce code email entry : String)
    (st : MemStore) (h : now2 < now + LINK_TTL) :
    (emailLoginIssuePair now secret nonce code email entry st).1.1.claims.reg.id = nonce ∧
    (emailLoginIssuePair now secret nonce code email entry st).1.2.claims.reg.id = nonce ∧
    (ConsumeClaimNonce now2
        (emailLoginIssuePair now secret nonce code email entry st).1.1.claims.reg
        (emailLoginIssuePair now secret nonce code email entry st).2).1 = .ok () ∧
    (ConsumeClaimNonce now2
        (emailLoginIssuePair now secret nonce code email entry st).1.2.claims.reg
        (emailLoginIssuePair now secret nonce code email entry st).2).1 = .ok () ∧
    (DecodeAccessCodeJWT now2 secret [JWT_AUDIENCE_EMAIL_LINK]
        (emailLoginIssuePair now secret nonce code email entry st).1.2
        (ConsumeClaimNonce now2
          (emailLoginIssuePair now secret nonce code email entry st).1.1.claims.reg
          (emailLoginIssuePair now secret nonce code email entry st).2).2).1 =
      .ok (emailLoginIssuePair now secret nonce code email entry st).1.2.claims ∧
    (DecodeAccessCodeJWT now2 secret [JWT_AUDIENCE_EMAIL_OTP]
        (emailLoginIssuePair now secret nonce code email entry st).1.1
        (ConsumeClaimNonce now2
          (emailLoginIssuePair now secret nonce code email entry st).1.2.claims.reg
          (emailLoginIssuePair now secret nonce code email entry st).2).2).1 =
      .ok (emailLoginIssuePair now secret nonce code email entry st).1.1.claims ∧
    (ConsumeClaimNonce now2
        (emailLoginIssuePair now secret nonce code email entry st).1.2.claims.reg
        (ConsumeClaimNonce now2
          (emailLoginIssuePair now secret nonce code email entry st).1.1.claims.reg
          (emailLoginIssuePair now secret nonce code email entry st).2).2).1 =
      .error (.nonceMissing nonce) ∧
    (ConsumeClaimNonce now2
        (emailLoginIssuePair now secret nonce code email entry st).1.1.claims.reg
        (ConsumeClaimNonce now2
          (emailLoginIssuePair now secret nonce code email entry st).1.2.claims.reg
          (emailLoginIssuePair now secret nonce code email entry st).2).2).1 =
      .error (.nonceMissing nonce) := by
  have hP : emailLoginIssuePair now secret nonce code email entry st =
      ((GenerateJWT secret
          { verify := code, email := email, entryId := entry, authenticateOnly := false,
            reg := { id := nonce, iat := now, exp := now + LINK_TTL,
                     aud := [JWT_AUDIENCE_EMAIL_OTP] } },
        GenerateJWT secret
          { verify := code, email := email, entryId := entry, authenticateOnly := false,
            reg := { id := nonce, iat := now, exp := now + LINK_TTL,
                     aud := [JWT_AUDIENCE_EMAIL_LINK] } }),
        mapInsert st nonce (now + (LINK_TTL + 10))) := by
    simp [emailLoginIssuePair, NewAccessCodeClaim, mustCreateRegisteredClaim,
      MemoryStore.Put, GenerateJWT, LINK_TTL]
  have hcons1 : ∀ aud2 : List String,
      ConsumeClaimNonce now2 { id := nonce, iat := now, exp := now + LINK_TTL, aud := aud2 }
        (mapInsert st nonce (now + (LINK_TTL + 10))) =
        (.ok (), mapErase (mapInsert st nonce (now + (LINK_TTL + 10))) nonce) := by
    intro aud2
    refine ConsumeClaimNonce_present now2 _ _ _ (mapLookup_insert st nonce _) ?_
    simp only [LINK_TTL] at h ⊢
    omega
  have hcons2 : ∀ aud2 aud3 : List String,
      (ConsumeClaimNonce now2 { id := nonce, iat := now, exp := now + LINK_TTL, aud := aud3 }
        (ConsumeClaimNonce now2
          { id := nonce, iat := now, exp := now + LINK_TTL, aud := aud2 }
          (mapInsert st nonce (now + (LINK_TTL + 10)))).2).1 =
        .error (.nonceMissing nonce) := by
    intro aud2 aud3
    rw [hcons1 aud2]
    rw [ConsumeClaimNonce_absent _ _ _ (mapLookup_erase _ _)]
  have hdec : ∀ aud2 : String,
      decodeJWT now2 secret [aud2] (fun c : AccessCodeClaim => c.reg)
        { alg := .hs256,
          claims := { verify := code, email := email, entryId := entry,
                      authenticateOnly := false,
                      reg := { id := nonce, iat := now, exp := now + LINK_TTL, aud := [aud2] } },
          key := secret, wellFormed := true } =
        .ok { verify := code, email := email, entryId := entry, authenticateOnly := false,
              reg := { id := nonce, iat := now, exp := now + LINK_TTL, aud := [aud2] } } := by
    intro aud2
    refine decodeJWT_generateJWT now2 secret [aud2] _ _ ?_ (Or.inr ?_)
    · simp only [LINK_TTL] at h ⊢
      omega
    · simp
  rw [hP]
  refine ⟨by simp [GenerateJWT], by simp [GenerateJWT], ?_, ?_, ?_, ?_, ?_, ?_⟩
  · simp [GenerateJWT, hcons1]
  · simp [GenerateJWT, hcons1]
  · simp [DecodeAccessCodeJWT, GenerateJWT, hdec]
  · simp [DecodeAccessCodeJWT, GenerateJWT, hdec]
  · simp [GenerateJWT, hcons2]
  · simp [GenerateJWT, hcons2]

/-- Witness for C2 at concrete inputs: issuance at time 0, consumption
    and verification at time 1, empty initial store. -/
theorem C2_paired_tokens_witness :
    (emailLoginIssuePair 0 "s" "n1" "c" "u@e.x" "E1" []).1.1.claims.reg.id = "n1" ∧
    (ConsumeClaimNonce 1
        (emailLoginIssuePair 0 "s" "n1" "c" "u@e.x" "E1" []).1.1.claims.reg
        (emailLoginIssuePair 0 "s" "n1" "c" "u@e.x" "E1" []).2).1 = .ok () ∧
    (DecodeAccessCodeJWT 1 "s" [JWT_AUDIENCE_EMAIL_LINK]
        (emailLoginIssuePair 0 "s" "n1" "c" "u@e.x" "E1" []).1.2
        (ConsumeClaimNonce 1
          (emailLoginIssuePair 0 "s" "n1" "c" "u@e.x" "E1" []).1.1.claims.reg
          (emailLoginIssuePair 0 "s" "n1" "c" "u@e.x" "E1" []).2).2).1 =
      .ok (emailLoginIssuePair 0 "s" "n1" "c" "u@e.x" "E1" []).1.2.claims ∧
    (ConsumeClaimNonce 1
        (emailLoginIssuePair 0 "s" "n1" "c" "u@e.x" "E1" []).1.2.claims.reg
        (ConsumeClaimNonce 1
          (emailLoginIssuePair 0 "s" "n1" "c" "u@e.x" "E1" []).1.1.claims.reg
          (emailLoginIssuePair 0 "s" "n1" "c" "u@e.x" "E1" []).2).2).1 =
      .error (.nonceMissing "n1") := by
  have h := C2_paired_tokens 0 1 "s" "n1" "c" "u@e.x" "E1" [] (by decide)
  exact ⟨h.1, h.2.2.1, h.2.2.2.2.1, h.2.2.2.2.2.2.1⟩

/-- C2 counterexample: consuming the second token of a concrete issued
    pair after the first was consumed fails with the store's
    `NonceMissingError`, which is a different error value than the
    `jwt.ErrInvalidNonce` named by the claim. -/
theorem C2_consume_error_counterexample :
    (ConsumeClaimNonce 1
        (emailLoginIssuePair 0 "s" "n1" "c" "u@e.x" "E1" []).1.2.claims.reg
        (ConsumeClaimNonce 1
          (emailLoginIssuePair 0 "s" "n1" "c" "u@e.x" "E1" []).1.1.claims.reg
          (emailLoginIssuePair 0 "s" "n1" "c" "u@e.x" "E1" []).2).2).1 =
      .error (.nonceMissing "n1") ∧
    GoError.nonceMissing "n1" ≠ GoError.invalidNonce := by
  exact ⟨rfl, by decide⟩

/-! ## Claim C3 — decoding and the nonce store -/

/-- C3 (amended): decoding an access-code token (any audience set) or an
    auth token leaves the nonce store unchanged, for every token and
    store — consumption there happens only through the separate consume
    operation.  Decoding an entry token, however, is the exception the
    claim misses: `DecodeEntryJWT` consumes the token's `jti` after
    successful validation, so its store effect is exactly that of
    `MemoryStore.Consume` on the claim's id (and only a parse/validation
    failure leaves the store unchanged). -/
theorem C3_decode_store_effects (now : Nat) (secret : String) (auds : List String)
    (tokA : SignedToken AccessCodeClaim) (tokU : SignedToken AuthClaims)
    (tokE : SignedToken EntryClaim) (st : MemStore) :
    (DecodeAccessCodeJWT now secret auds tokA st).2 = st ∧
    (DecodeAuthJWT now secret tokU st).2 = st ∧
    (∀ e, decodeJWT now secret [] (fun c => c.reg) tokE = .error e →
      (DecodeEntryJWT now secret tokE st).2 = st) ∧
    (∀ c, decodeJWT now secret [] (fun c => c.reg) tokE = .ok c →
      (DecodeEntryJWT now secret tokE st).2 = (MemoryStore.Consume now st c.reg.id).2) := by
  refine ⟨rfl, rfl, ?_, ?_⟩
  · intro e he
    simp [DecodeEntryJWT, he]
  · intro c hc
    simp only [DecodeEntryJWT, hc]
    rcases hcons : MemoryStore.Consume now st c.reg.id with ⟨⟨ok1, err⟩, st2⟩
    cases err with
    | none => cases ok1 <;> simp
    | some e => simp

/-- Witness for C3 at concrete inputs: a valid entry token whose decode
    removes its nonce, and an access-code decode that leaves the same
    store untouched. -/
theorem C3_decode_store_effects_witness :
    (DecodeAccessCodeJWT 10 "s" [JWT_AUDIENCE_EMAIL_OTP]
        (GenerateJWT "s"
          { verify := "v", email := "u@e.x", entryId := "E1", authenticateOnly := false,
            reg := { id := "n1", iat := 0, exp := 60, aud := [JWT_AUDIENCE_EMAIL_OTP] } })
        [("n1", 70)]).2 = [("n1", 70)] ∧
    (DecodeEntryJWT 10 "s"
        (GenerateJWT "s" { entryId := "E1", reg := { id := "n1", iat := 0, exp := 60, aud := [] } })
        [("n1", 70)]).2 =
      (MemoryStore.Consume 10 [("n1", 70)] "n1").2 := by
  have h := C3_decode_store_effects 10 "s" [JWT_AUDIENCE_EMAIL_OTP]
    (GenerateJWT "s"
      { verify := "v", email := "u@e.x", entryId := "E1", authenticateOnly := false,
        reg := { id := "n1", iat := 0, exp := 60, aud := [JWT_AUDIENCE_EMAIL_OTP] } })
    (GenerateJWT "s"
      { userId := "u@e.x", mustRenew := false,
        reg := { id := "n2", iat := 0, exp := 60, aud := [] } })
    (GenerateJWT "s" { entryId := "E1", reg := { id := "n1", iat := 0, exp := 60, aud := [] } })
    [("n1", 70)]
  exact ⟨h.1, h.2.2.2 _ (by rfl)⟩

/-- C3 counterexample: decoding a valid entry token at time 10 against a
    store holding its nonce removes the nonce — the store is changed by
    the verify/decode operation itself, refuting the claim for the entry
    variant. -/
theorem C3_entry_decode_counterexample :
    (DecodeEntryJWT 10 "s"
        (GenerateJWT "s" { entryId := "E1", reg := { id := "n1", iat := 0, exp := 60, aud := [] } })
        [("n1", 70)]).2 = [] ∧
    ([] : MemStore) ≠ [("n1", 70)] := by
  exact ⟨rfl, by decide⟩

/-! ## Claim C7 — the per-address send interval -/

/-- The HTTP status of the mounted `POST /auth/email/login` handler does
    not depend on the time of the request, the generated OTP or nonce,
    or the nonce-store state: the handler keeps no per-address state at
    all. -/
theorem emailLoginPost_status_stateless (now now2 : Nat) (secret : String)
    (otpEnc : String → String → String) (accessList : List String) (emailForm : List Char)
    (otp nonce otp2 nonce2 entryId : String) (sendOk : Bool) (st st2 : MemStore) :
    (emailLoginPost now2 secret otpEnc accessList emailForm otp2 nonce2 entryId sendOk st2).1.status =
    (emailLoginPost now secret otpEnc accessList emailForm otp nonce entryId sendOk st).1.status := by
  cases hEmpty : emailForm.isEmpty with
  | true => simp [emailLoginPost, hEmpty]
  | false =>
    cases hv : ValidEmail (trimSpaces emailForm) with
    | some e => simp [emailLoginPost, hEmpty, hv]
    | none =>
      cases hc : accessList.contains (String.mk (trimSpaces emailForm)) with
      | false =>
        have hc2 : String.mk (trimSpaces emailForm) ∉ accessList := by simpa using hc
        simp [emailLoginPost, hEmpty, hv, hc2]
      | true =>
        have hc2 : String.mk (trimSpaces emailForm) ∈ accessList := by simpa using hc
        cases sendOk <;> simp [emailLoginPost, hEmpty, hv, hc2]

/-- C7 (amended): the route actually mounted at `/auth/email/login`
    (`EmailLoginRoute`'s POST handler) enforces no per-address send
    interval — a second request for the same address gets the same
    status as the first, so two valid requests within any interval both
    return 200.  The claimed behavior (first 200, second 429 within the
    interval, via an in-memory `email → last_sent_at` map) is
    implemented only by the POST handler of `auth.NewEmailProvider`
    (`auth/email.go`), which is not mounted under `/auth/email`. -/
theorem C7_send_interval (now now2 interval : Nat) (secret : String)
    (otpEnc : String → String → String) (accessList : List String) (emailForm : List Char)
    (otp nonce otp2 nonce2 entryId : String) (sendOk : Bool) (st : MemStore)
    (hne : (trimSpaces emailForm).isEmpty = false)
    (hvalid : isValidEmail (trimSpaces emailForm) = true)
    (hint : now2 - now < interval) :
    ((emailLoginPost now2 secret otpEnc accessList emailForm otp2 nonce2 entryId sendOk
        (emailLoginPost now secret otpEnc accessList emailForm otp nonce entryId sendOk st).2).1.status =
      (emailLoginPost now secret otpEnc accessList emailForm otp nonce entryId sendOk st).1.status) ∧
    (emailProviderPost now interval emailForm []).1 = 200 ∧
    (emailProviderPost now2 interval emailForm
        (emailProviderPost now interval emailForm []).2).1 = 429 := by
  refine ⟨emailLoginPost_status_stateless _ _ _ _ _ _ _ _ _ _ _ _ _ _, ?_, ?_⟩
  · simp [emailProviderPost, hne, hvalid, mapLookup]
  · simp [emailProviderPost, hne, hvalid, mapLookup_nil, mapLookup_insert, hint]

/-- Witness for C7 at concrete inputs: two requests for
    `user@example.com` 2 seconds apart with a 60-second interval. -/
theorem C7_send_interval_witness :
    (10 : Nat) - 12 < 60 ∧
    (emailProviderPost 10 60 "user@example.com".data []).1 = 200 ∧
    (emailProviderPost 12 60 "user@example.com".data
        (emailProviderPost 10 60 "user@example.com".data []).2).1 = 429 := by
  have h := C7_send_interval 10 12 60 "s" (fun d k => d ++ k) ["user@example.com"]
    "user@example.com".data "111111" "n1" "222222" "n2" "E" true []
    (by decide) (by decide) (by decide)
  exact ⟨by decide, h.2.1, h.2.2⟩

/-- C7 counterexample: two valid `POST /auth/email/login` requests for
    the same address 2 seconds apart (well within the configured
    interval) both return 200 from the mounted handler — the second is
    not 429 as the claim states. -/
theorem C7_no_throttle_counterexample :
    (emailLoginPost 10 "s" (fun d k => d ++ k) ["user@example.com"]
        "user@example.com".data "111111" "n1" "E" true []).1.status = 200 ∧
    (emailLoginPost 12 "s" (fun d k => d ++ k) ["user@example.com"]
        "user@example.com".data "222222" "n2" "E" true
        (emailLoginPost 10 "s" (fun d k => d ++ k) ["user@example.com"]
          "user@example.com".data "111111" "n1" "E" true []).2).1.status = 200 ∧
    (200 : Nat) ≠ 429 := by
  exact ⟨rfl, rfl, by decide⟩

/-! ## Claim C8 — IP binding of device re-registration -/

/-- C8: re-registering an existing device (pending or approved, stored
    client IP `d.clientIP`) from a different client IP `B` attaches only
    the `ErrClientIPMismatch` error — mapped to HTTP 403 with stop code
    `IP_MISMATCH` — and leaves the device table unchanged. -/
theorem C8_ip_mismatch_frame (now : Nat) (secret X genID : List Char) (d : Device)
    (B : String) (db : DeviceTable)
    (hver : VerifyDeviceID X secret = true)
    (hX : X.isEmpty = false)
    (hlook : mapLookup db (String.mk X) = some d)
    (hstat : d.status = .pending ∨ d.status = .approved)
    (hip : d.clientIP ≠ B) :
    registerPost now secret X genID B db =
      ({ aborts := [.clientIPMismatch], okStatus := none, responseDeviceID := "" }, db) ∧
    RegisterOutcome.httpStatus
      { aborts := [.clientIPMismatch], okStatus := none, responseDeviceID := "" } = 403 ∧
    GetErrorStopCodes .clientIPMismatch = ["IP_MISMATCH"] := by
  have hSne : (String.mk X == "") = false := by
    rw [beq_eq_false_iff_ne]
    intro hcontra
    have hnil : X = [] := congrArg String.data hcontra
    rw [hnil] at hX
    simp at hX
  refine ⟨?_, rfl, rfl⟩
  rcases hstat with hs | hs <;>
    simp [registerPost, hX, hver, getProvisioning, hSne, hlook, hs, hip]

set_option maxRecDepth 1000000 in
/-- Witness for C8 at concrete inputs: the device id generated for the
    zero UUID under secret `"s"`, registered from `1.2.3.4` and
    re-registered from `5.6.7.8`. -/
theorem C8_ip_mismatch_frame_witness :
    VerifyDeviceID "00000000-0000-4000-8000-000000000000-354661aa7c99d8e1".data "s".data
      = true ∧
    (registerPost 0 "s".data
        "00000000-0000-4000-8000-000000000000-354661aa7c99d8e1".data [] "5.6.7.8"
        [("00000000-0000-4000-8000-000000000000-354661aa7c99d8e1",
          { deviceID := "00000000-0000-4000-8000-000000000000-354661aa7c99d8e1",
            clientIP := "1.2.3.4", status := .pending, createdAt := 0, updatedAt := 0,
            approvedBy := "" })]) =
      ({ aborts := [.clientIPMismatch], okStatus := none, responseDeviceID := "" },
        [("00000000-0000-4000-8000-000000000000-354661aa7c99d8e1",
          { deviceID := "00000000-0000-4000-8000-000000000000-354661aa7c99d8e1",
            clientIP := "1.2.3.4", status := .pending, createdAt := 0, updatedAt := 0,
            approvedBy := "" })]) := by
  refine ⟨by decide, ?_⟩
  exact (C8_ip_mismatch_frame 0 "s".data
    "00000000-0000-4000-8000-000000000000-354661aa7c99d8e1".data []
    { deviceID := "00000000-0000-4000-8000-000000000000-354661aa7c99d8e1",
      clientIP := "1.2.3.4", status := .pending, createdAt := 0, updatedAt := 0,
      approvedBy := "" }
    "5.6.7.8"
    [("00000000-0000-4000-8000-000000000000-354661aa7c99d8e1",
      { deviceID := "00000000-0000-4000-8000-000000000000-354661aa7c99d8e1",
        clientIP := "1.2.3.4", status := .pending, createdAt := 0, updatedAt := 0,
        approvedBy := "" })]
    (by decide) (by decide) (by decide) (Or.inl rfl) (by decide)).1

/-! ## Claims C9 and C10 — device-id generation and verification

The lemmas below recover the dash structure of a generated device id:
the signature is dash-free hex, so splitting `uuid ++ "-" ++ sig` on
dashes yields the UUID groups followed by the signature. -/

theorem hexChars_getD_ne_dash (i : Nat) : hexChars.getD i '0' ≠ '-' := by
  by_cases h : i < 16
  · have hall : ∀ j, j < 16 → hexChars.getD j '0' ≠ '-' := by decide
    exact hall i h
  · rw [List.getD_eq_default]
    · decide
    · have h16 : hexChars.length = 16 := by decide
      omega

theorem mem_hexEncode_ne_dash (bs : List Nat) (c : Char) (hc : c ∈ hexEncode bs) :
    c ≠ '-' := by
  simp only [hexEncode, List.mem_flatMap] at hc
  rcases hc with ⟨b, _, hcb⟩
  simp only [List.mem_cons, List.mem_singleton, List.not_mem_nil, or_false] at hcb
  rcases hcb with h | h <;> rw [h] <;> exact hexChars_getD_ne_dash _

theorem intercalate_append_singleton (x : α) (gs : List (List α)) (l : List α)
    (h : gs ≠ []) : [x].intercalate (gs ++ [l]) = [x].intercalate gs ++ x :: l := by
  induction gs with
  | nil => exact absurd rfl h
  | cons g tl ih =>
    cases tl with
    | nil => simp [List.intercalate]
    | cons g2 t2 =>
      have ih2 := ih (by simp)
      simp only [List.intercalate, List.cons_append, List.intersperse_cons_cons,
        List.flatten_cons] at ih2 ⊢
      rw [ih2]
      simp [List.append_assoc]

theorem splitOn_append_sig (gs : List (List Char)) (sig : List Char)
    (hg : ∀ l ∈ gs, '-' ∉ l) (hsig : '-' ∉ sig) (hne : gs ≠ []) :
    ((['-'].intercalate gs) ++ '-' :: sig).splitOn '-' = gs ++ [sig] := by
  rw [← intercalate_append_singleton '-' gs sig hne]
  refine List.splitOn_intercalate (gs ++ [sig]) '-' ?_ (by simp)
  intro l hl
  rcases List.mem_append.mp hl with h | h
  · exact hg l h
  · rw [List.mem_singleton.mp h]
    exact hsig

/-- C10: round-trip of device identifiers.  For every secret and every
    UUID string (five dash-free groups joined by dashes, the shape
    `uuid.String()` produces), verifying a generated id with the same
    secret succeeds; and verifying it against another secret succeeds
    exactly when the 16-character truncated HMAC signatures under the
    two secrets coincide — so changing the secret fails except on a
    truncated-HMAC collision. -/
theorem C10_roundtrip (secret1 secret2 uuid : List Char) (gs : List (List Char))
    (h5 : gs.length = 5) (hg : ∀ l ∈ gs, '-' ∉ l)
    (hu : uuid = ['-'].intercalate gs) :
    VerifyDeviceID (GenerateDeviceID secret1 uuid) secret1 = true ∧
    VerifyDeviceID (GenerateDeviceID secret1 uuid) secret2 =
      ((hexEncode (hmacSha256 (strBytes secret1) (strBytes uuid))).take 16 ==
       (hexEncode (hmacSha256 (strBytes secret2) (strBytes uuid))).take 16) := by
  subst hu
  have hne : gs ≠ [] := by
    intro hcontra
    rw [hcontra] at h5
    simp at h5
  have hsig : '-' ∉ (hexEncode (hmacSha256 (strBytes secret1)
      (strBytes (['-'].intercalate gs)))).take 16 := by
    intro hmem
    exact mem_hexEncode_ne_dash _ _ (List.take_subset _ _ hmem) rfl
  have hsplit : (GenerateDeviceID secret1 (['-'].intercalate gs)).splitOn '-' =
      gs ++ [(hexEncode (hmacSha256 (strBytes secret1)
        (strBytes (['-'].intercalate gs)))).take 16] := by
    exact splitOn_append_sig gs _ hg hsig hne
  have hlen : (gs ++ [(hexEncode (hmacSha256 (strBytes secret1)
      (strBytes (['-'].intercalate gs)))).take 16]).length = 6 := by
    simp [h5]
  have htake : (gs ++ [(hexEncode (hmacSha256 (strBytes secret1)
      (strBytes (['-'].intercalate gs)))).take 16]).take 5 = gs :=
    List.take_left' h5
  have hgetD : (gs ++ [(hexEncode (hmacSha256 (strBytes secret1)
      (strBytes (['-'].intercalate gs)))).take 16]).getD 5 [] =
      (hexEncode (hmacSha256 (strBytes secret1)
        (strBytes (['-'].intercalate gs)))).take 16 := by
    rw [List.getD_append_right _ _ _ _ (by omega : gs.length ≤ 5), h5]
    rfl
  constructor
  · simp only [VerifyDeviceID, hsplit, hlen, htake, hgetD, List.intercalate_splitOn]
    simp [List.intercalate_splitOn]
  · simp only [VerifyDeviceID, hsplit, hlen, htake, hgetD]
    simp

set_option maxRecDepth 1000000 in
/-- Witness for C10 at concrete inputs: the zero UUID under secret
    `"s"`, verified with the same secret. -/
theorem C10_roundtrip_witness :
    (["00000000".data, "0000".data, "4000".data, "8000".data,
      "000000000000".data] : List (List Char)).length = 5 ∧
    VerifyDeviceID
      (GenerateDeviceID "s".data "00000000-0000-4000-8000-000000000000".data)
      "s".data = true := by
  refine ⟨by decide, ?_⟩
  exact (C10_roundtrip "s".data "s".data "00000000-0000-4000-8000-000000000000".data
    ["00000000".data, "0000".data, "4000".data, "8000".data, "000000000000".data]
    (by decide) (by decide) (by decide)).1

/-- C9 (amended): server-side device-id verification accepts a string
    exactly when it has six dash-separated groups and the sixth equals
    the first 16 hex characters of the HMAC-SHA256 of the full
    five-group UUID, keyed directly with the server secret — no PBKDF2
    derivation, and all five groups (not four) are covered by the MAC. -/
theorem C9_verify_matches_spec (d secret : List Char) :
    VerifyDeviceID d secret = specDeviceIDAccepts d secret := by
  by_cases h : (d.splitOn '-').length = 6
  · simp [VerifyDeviceID, specDeviceIDAccepts, h]
  · simp [VerifyDeviceID, specDeviceIDAccepts, h]

set_option maxRecDepth 1000000 in
/-- C9 counterexample: acceptance is not a function of the first four
    UUID groups and the appended signature, however the MAC and key
    derivation are chosen — so in particular it is not "signature equals
    the HMAC of the UUID's first four groups under a PBKDF2-derived
    key".  Two concrete ids agreeing on their first four groups and
    signature, differing only in the fifth group, are accepted and
    rejected respectively (the code MACs all five groups with the raw
    secret). -/
theorem C9_first_four_groups_counterexample :
    ¬∃ F : List Char → List Char → Bool,
      ∀ d : List Char, (d.splitOn '-').length = 6 →
        VerifyDeviceID d "s".data =
          F (['-'].intercalate ((d.splitOn '-').take 4)) ((d.splitOn '-').getD 5 []) := by
  rintro ⟨F, hF⟩
  have h1 := hF "00000000-0000-4000-8000-000000000000-354661aa7c99d8e1".data (by decide)
  have h2 := hF "00000000-0000-4000-8000-000000000001-354661aa7c99d8e1".data (by decide)
  have hv1 : VerifyDeviceID
      "00000000-0000-4000-8000-000000000000-354661aa7c99d8e1".data "s".data = true := by
    decide
  have hv2 : VerifyDeviceID
      "00000000-0000-4000-8000-000000000001-354661aa7c99d8e1".data "s".data = false := by
    decide
  have he1 : ['-'].intercalate
      (("00000000-0000-4000-8000-000000000000-354661aa7c99d8e1".data.splitOn '-').take 4) =
      ['-'].intercalate
      (("00000000-0000-4000-8000-000000000001-354661aa7c99d8e1".data.splitOn '-').take 4) := by
    decide
  have he2 :
      ("00000000-0000-4000-8000-000000000000-354661aa7c99d8e1".data.splitOn '-').getD 5 [] =
      ("00000000-0000-4000-8000-000000000001-354661aa7c99d8e1".data.splitOn '-').getD 5 [] := by
    decide
  rw [hv1, he1, he2] at h1
  rw [hv2] at h2
  rw [← h2] at h1
  exact Bool.noConfusion h1

end EntryAccess
